import Mathlib

/-!
Verification of the appointment-scheduling core: a shallow embedding of the
storage-backed services (appointment creation, notification engine,
statistics aggregator) together with proofs of the specified properties.

Modelling conventions:
* The persisted value under one storage key is a `Payload α`: the key can be
  absent (`getItem` returned null), hold an unparseable string (`JSON.parse`
  throws), or hold a well-formed serialized list.  `JSON.stringify` of a list
  always produces a parseable payload (`Payload.good`).
* Timestamps are modelled as integer milliseconds.  A notification's
  `createdAt` is stored in the source as the ISO-8601 rendering of the
  creation instant and compared via `new Date(s).getTime()`; since that
  round-trip is order- and equality-preserving on the strings the code itself
  produces, the field is embedded directly as the millisecond value.
* Statistics percentages are computed in `ℚ`.  At the operand sizes the
  claims exercise (3/10*100, 4/10*100, 0) IEEE-754 double arithmetic rounds
  to the same exact values, so the rational model agrees with the source.
-/

/-- A logged-in user as consumed by the create-appointment screen
(`user?.id`, `user?.name`). -/
structure UserInfo where
  id : String
  name : String
deriving DecidableEq, Repr

/-- A doctor record from the mocked doctor list. -/
structure Doctor where
  id : String
  name : String
  specialty : String
  image : String
deriving DecidableEq, Repr

/-- An appointment record as persisted under the appointments key
(shape from `CreateAppointmentScreen` / `statistics.ts`).  `status` is kept
as a string, exactly as stored. -/
structure Appointment where
  id : String
  patientId : String
  patientName : String
  doctorId : String
  doctorName : String
  date : String
  time : String
  specialty : String
  status : String
deriving DecidableEq, Repr

/-- A notification record as persisted by `services/notifications.ts`.
`type` is kept as a string; `createdAt` is the millisecond instant (see the
module comment). -/
structure Notification where
  id : String
  userId : String
  title : String
  message : String
  type : String
  read : Bool
  createdAt : Nat
  appointmentId : Option String
deriving DecidableEq, Repr

/-- The value held by one storage key: absent (`getItem` = null), corrupt
(`JSON.parse` throws), or a well-formed serialized collection. -/
inductive Payload (α : Type) where
  | absent : Payload α
  | corrupt : Payload α
  | good : List α → Payload α
deriving DecidableEq, Repr

/-- Models the idiom `stored ? JSON.parse(stored) : []`: an absent key reads
as the empty list, a corrupt payload throws, a good payload yields its
records. -/
def jsonLoad : Payload α → Except Unit (List α)
  | .absent => .ok []
  | .corrupt => .error ()
  | .good records => .ok records

/-- The records held by a payload (empty for absent/corrupt), used to state
properties about persisted collections. -/
def payloadRecords : Payload α → List α
  | .good records => records
  | _ => []

/-! ## Notification service (`services/notifications.ts`) -/

/-- The comparator `(a, b) => new Date(b.createdAt).getTime() - new
Date(a.createdAt).getTime()`: `a` precedes `b` when `a` is at least as
recent. -/
def notifGe (a b : Notification) : Prop :=
  b.createdAt ≤ a.createdAt

instance : DecidableRel notifGe := fun a b => Nat.decLe b.createdAt a.createdAt

instance : IsTotal Notification notifGe :=
  ⟨fun a b => Or.symm (Nat.le_total a.createdAt b.createdAt)⟩

instance : IsTrans Notification notifGe :=
  ⟨fun _ _ _ hab hbc => Nat.le_trans hbc hab⟩

/-- `getNotifications(userId)`: filter the stored collection by user and sort
most-recent-first.  JavaScript `Array.prototype.sort` is stable, and a stable
sort under a total preorder has a unique result, so the stable
`List.insertionSort` denotes it exactly.  A corrupt payload is caught and
yields `[]`. -/
def getNotifications (userId : String) (p : Payload Notification) : List Notification :=
  match jsonLoad p with
  | .ok allNotifications =>
      List.insertionSort notifGe (allNotifications.filter (fun n => decide (n.userId = userId)))
  | .error _ => []

/-- `createNotification`: append a record with a timestamp id,
`createdAt = now` and `read = false`; a parse failure is caught and leaves
the store untouched. -/
def createNotification (now : Nat) (userId type title message : String)
    (appointmentId : Option String) (p : Payload Notification) : Payload Notification :=
  match jsonLoad p with
  | .ok allNotifications =>
      .good (allNotifications ++
        [{ id := toString now, userId := userId, title := title, message := message,
           type := type, read := false, createdAt := now, appointmentId := appointmentId }])
  | .error _ => p

/-- `markAsRead(notificationId)`: map over the collection setting `read` on
the matching record; parse failures are caught and leave the store
untouched. -/
def markAsRead (notificationId : String) (p : Payload Notification) : Payload Notification :=
  match jsonLoad p with
  | .ok allNotifications =>
      .good (allNotifications.map (fun n =>
        if n.id = notificationId then { n with read := true } else n))
  | .error _ => p

/-- `markAllAsRead(userId)`: set `read` on every record of the user. -/
def markAllAsRead (userId : String) (p : Payload Notification) : Payload Notification :=
  match jsonLoad p with
  | .ok allNotifications =>
      .good (allNotifications.map (fun n =>
        if n.userId = userId then { n with read := true } else n))
  | .error _ => p

/-- `deleteNotification(notificationId)`: drop the matching record. -/
def deleteNotification (notificationId : String) (p : Payload Notification) :
    Payload Notification :=
  match jsonLoad p with
  | .ok allNotifications =>
      .good (allNotifications.filter (fun n => decide (n.id ≠ notificationId)))
  | .error _ => p

/-- `getUnreadCount(userId)`: unread records among the user's
notifications. -/
def getUnreadCount (userId : String) (p : Payload Notification) : Nat :=
  ((getNotifications userId p).filter (fun n => !n.read)).length

/-- `notifyAppointmentConfirmed`: confirmation notification addressed to the
patient. -/
def notifyAppointmentConfirmed (now : Nat) (patientId : String) (a : Appointment)
    (p : Payload Notification) : Payload Notification :=
  createNotification now patientId "appointment_confirmed" "Consulta Confirmada"
    ("Sua consulta com " ++ a.doctorName ++ " foi confirmada para " ++ a.date ++
      " às " ++ a.time ++ ".")
    (some a.id) p

/-- `notifyAppointmentCancelled`: cancellation notification addressed to the
patient, with the optional reason appended. -/
def notifyAppointmentCancelled (now : Nat) (patientId : String) (a : Appointment)
    (reason : Option String) (p : Payload Notification) : Payload Notification :=
  createNotification now patientId "appointment_cancelled" "Consulta Cancelada"
    ("Sua consulta com " ++ a.doctorName ++ " foi cancelada." ++
      (match reason with
       | some r => " Motivo: " ++ r
       | none => ""))
    (some a.id) p

/-- `notifyNewAppointment`: new-booking notification addressed to the
doctor. -/
def notifyNewAppointment (now : Nat) (doctorId : String) (a : Appointment)
    (p : Payload Notification) : Payload Notification :=
  createNotification now doctorId "general" "Nova Consulta Agendada"
    (a.patientName ++ " agendou uma consulta para " ++ a.date ++ " às " ++ a.time ++ ".")
    (some a.id) p

/-! ## Calendar arithmetic

The `Date` semantics used by `validateDate`: `new Date(y, m, d)` builds the
local midnight of the (overflow-normalized) civil date, and
`setMonth(m + 3)` shifts the month keeping the day-of-month and time-of-day,
again normalizing overflow.  Days-from-civil and civil-from-days follow the
standard proleptic-Gregorian conversion; a fixed timezone offset drops out of
every comparison the code performs, so local time is modelled as offset 0. -/

/-- Days since the Unix epoch of a civil date with `month ∈ [1,12]` (day may
be out of range; it simply offsets). -/
def daysFromCivil (year month day : Int) : Int :=
  let y := if month ≤ 2 then year - 1 else year
  let era := Int.fdiv y 400
  let yoe := y - era * 400
  let mp := if month > 2 then month - 3 else month + 9
  let doy := Int.fdiv (153 * mp + 2) 5 + day - 1
  let doe := yoe * 365 + Int.fdiv yoe 4 - Int.fdiv yoe 100 + doy
  era * 146097 + doe - 719468

/-- Civil date (year, month ∈ [1,12], day) of a days-since-epoch count. -/
def civilFromDays (z : Int) : Int × Int × Int :=
  let z := z + 719468
  let era := Int.fdiv z 146097
  let doe := z - era * 146097
  let yoe := Int.fdiv (doe - Int.fdiv doe 1460 + Int.fdiv doe 36524 - Int.fdiv doe 146096) 365
  let y := yoe + era * 400
  let doy := doe - (365 * yoe + Int.fdiv yoe 4 - Int.fdiv yoe 100)
  let mp := Int.fdiv (5 * doy + 2) 153
  let day := doy - Int.fdiv (153 * mp + 2) 5 + 1
  let month := mp + (if mp < 10 then 3 else -9)
  (if month ≤ 2 then y + 1 else y, month, day)

/-- Days since epoch of `(year, monthIndex, day)` where `monthIndex` is the
0-based JavaScript month index, possibly out of `[0,11]` (normalized by
carrying into the year). -/
def makeDateDays (year monthIndex day : Int) : Int :=
  let carry := Int.fdiv monthIndex 12
  daysFromCivil (year + carry) (monthIndex - 12 * carry + 1) day

/-- Milliseconds of the local midnight produced by `new Date(y, m, d)`,
including the legacy quirk mapping years 0–99 to 1900–1999. -/
def jsNewDateMs (year monthIndex day : Int) : Int :=
  let y := if 0 ≤ year ∧ year ≤ 99 then 1900 + year else year
  86400000 * makeDateDays y monthIndex day

/-- `new Date(nowMs).setMonth(getMonth() + k)`: same day-of-month and
time-of-day, month shifted by `k` with overflow normalization. -/
def setMonthPlus (nowMs : Int) (k : Int) : Int :=
  let days := Int.fdiv nowMs 86400000
  let msOfDay := nowMs - 86400000 * days
  let c := civilFromDays days
  86400000 * makeDateDays c.1 (c.2.1 - 1 + k) c.2.2 + msOfDay

/-- Splitting a character list on `'/'`, accumulating the current piece in
reverse: the recursion behind `String.split('/')`. -/
def splitSlashAux : List Char → List Char → List String
  | [], acc => [String.mk acc.reverse]
  | c :: rest, acc =>
      if c = '/' then String.mk acc.reverse :: splitSlashAux rest []
      else splitSlashAux rest (c :: acc)

/-- JavaScript `s.split('/')`: always at least one piece; empty pieces are
kept. -/
def jsSplit (s : String) : List String :=
  splitSlashAux s.toList []

/-- Whether a string is non-empty and all ASCII digits (the `\d+` pieces of
the date regex). -/
def allDigits (s : String) : Bool :=
  s.length > 0 && s.toList.all Char.isDigit

/-- `parseInt` on a digit string. -/
def parseIntDigits (s : String) : Nat :=
  s.toList.foldl (fun n c => 10 * n + (c.toNat - 48)) 0

/-- `validateDate` from `AppointmentForm`: the input must match
`^(\d{2})/(\d{2})/(\d{4})$` and the resulting `new Date(year, month-1, day)`
must lie in `[now, setMonth(now, month+3)]` — the comparison includes the
current time-of-day, exactly as in the source. -/
def validateDate (nowMs : Int) (inputDate : String) : Bool :=
  match jsSplit inputDate with
  | [ds, ms, ys] =>
      if ds.length = 2 && ms.length = 2 && ys.length = 4 &&
          allDigits ds && allDigits ms && allDigits ys then
        let date := jsNewDateMs (Int.ofNat (parseIntDigits ys))
          (Int.ofNat (parseIntDigits ms) - 1) (Int.ofNat (parseIntDigits ds))
        decide (date ≥ nowMs ∧ date ≤ setMonthPlus nowMs 3)
      else false
  | _ => false

/-! ## Time-slot grid and the appointment form -/

/-- `hour.toString().padStart(2, '0')`. -/
def pad2 (n : Nat) : String :=
  let s := toString n
  if s.length ≤ 1 then "0" ++ s else s

/-- `generateTimeSlots` (identical in `AppointmentForm.tsx` and
`TimeSlotList.tsx`): `for (hour = 9; hour < 18; hour++)` pushing `HH:00` and
`HH:30`. -/
def generateTimeSlots : List String :=
  (List.range' 9 9).foldl (fun slots hour =>
    slots ++ [pad2 hour ++ ":00", pad2 hour ++ ":30"]) []

/-- The payload `AppointmentForm.handleSubmit` hands to `onSubmit`; the
`Date` object is embedded as its millisecond value. -/
structure SubmitPayload where
  doctorId : String
  dateMs : Int
  time : String
  description : String
deriving DecidableEq, Repr

/-- `AppointmentForm.handleSubmit`: requires doctor, time and description to
be non-empty and the date input to pass `validateDate`; on success emits the
normalized payload, otherwise alerts and emits nothing. -/
def handleSubmit (nowMs : Int) (selectedDoctor dateInput selectedTime description : String) :
    Option SubmitPayload :=
  if selectedDoctor = "" ∨ selectedTime = "" ∨ description = "" then none
  else if validateDate nowMs dateInput then
    match jsSplit dateInput with
    | [ds, ms, ys] =>
        some { doctorId := selectedDoctor,
               dateMs := jsNewDateMs (Int.ofNat (parseIntDigits ys))
                 (Int.ofNat (parseIntDigits ms) - 1) (Int.ofNat (parseIntDigits ds)),
               time := selectedTime, description := description }
    | _ => none
  else none

/-! ## Appointment creation (`CreateAppointmentScreen.handleCreateAppointment`) -/

/-- Result of the create handler: the two collections after the call and the
error message set by validation or the catch-all handler (`none` on
success). -/
structure CreateResult where
  appts : Payload Appointment
  notifs : Payload Notification
  error : Option String
deriving DecidableEq, Repr

/-- The appointment object built by `handleCreateAppointment`:
`id = Date.now().toString()`, patient fields from `user?.id || ''` /
`user?.name || ''`, `status = 'pending'`. -/
def newAppointment (now : Nat) (user : Option UserInfo) (doctor : Doctor)
    (date time : String) : Appointment :=
  { id := toString now,
    patientId := (user.map (fun u => u.id)).getD "",
    patientName := (user.map (fun u => u.name)).getD "",
    doctorId := doctor.id,
    doctorName := doctor.name,
    date := date,
    time := time,
    specialty := doctor.specialty,
    status := "pending" }

/-- `handleCreateAppointment`: rejects only empty `date` / `selectedTime` /
missing `selectedDoctor`; otherwise appends the new appointment to the
stored collection, persists it, and notifies the doctor.  A storage parse
failure is caught by the outer handler, which sets the generic error and
persists nothing. -/
def handleCreateAppointment (now notifNow : Nat) (user : Option UserInfo)
    (date selectedTime : String) (selectedDoctor : Option Doctor)
    (appts : Payload Appointment) (notifs : Payload Notification) : CreateResult :=
  if date = "" ∨ selectedTime = "" ∨ selectedDoctor = none then
    { appts := appts, notifs := notifs,
      error := some "Por favor, preencha a data e selecione um médico e horário" }
  else
    match selectedDoctor, jsonLoad appts with
    | some doctor, .ok appointments =>
        let a := newAppointment now user doctor date selectedTime
        { appts := .good (appointments ++ [a]),
          notifs := notifyNewAppointment notifNow doctor.id a notifs,
          error := none }
    | _, _ =>
        { appts := appts, notifs := notifs,
          error := some "Erro ao agendar consulta. Tente novamente." }

/-! ## Statistics aggregator (`services/statistics.ts`) -/

/-- Increment the count of `key` in an insertion-ordered association list
(the object built by `appointmentsByMonth[monthKey] =
(appointmentsByMonth[monthKey] || 0) + 1`). -/
def bump : List (String × Nat) → String → List (String × Nat)
  | [], key => [(key, 1)]
  | (k, v) :: rest, key =>
      if k = key then (k, v + 1) :: rest else (k, v) :: bump rest key

/-- The `${month}/${year}` template where `month`/`year` come from
destructuring `date.split('/')`: a missing component is the JavaScript
`undefined`, rendered as the string "undefined" — destructuring a short
array does NOT throw, so no date string ever reaches the catch block. -/
def monthKey (date : String) : String :=
  let parts := jsSplit date
  (match parts[1]? with
   | some m => m
   | none => "undefined") ++ "/" ++
  (match parts[2]? with
   | some y => y
   | none => "undefined")

/-- The per-status percentage triple. -/
structure StatusPercentages where
  confirmed : ℚ
  pending : ℚ
  cancelled : ℚ
deriving DecidableEq, Repr

/-- The full statistics record returned by `getGeneralStatistics`. -/
structure Statistics where
  totalAppointments : Nat
  confirmedAppointments : Nat
  pendingAppointments : Nat
  cancelledAppointments : Nat
  totalPatients : Nat
  totalDoctors : Nat
  specialties : List (String × Nat)
  appointmentsByMonth : List (String × Nat)
  statusPercentages : StatusPercentages
deriving DecidableEq, Repr

/-- The statistics computed from a decoded appointment list (the body of
`getGeneralStatistics` after loading). -/
def computeStatistics (appointments : List Appointment) : Statistics :=
  let totalAppointments := appointments.length
  let confirmedAppointments :=
    (appointments.filter (fun a => decide (a.status = "confirmed"))).length
  let pendingAppointments :=
    (appointments.filter (fun a => decide (a.status = "pending"))).length
  let cancelledAppointments :=
    (appointments.filter (fun a => decide (a.status = "cancelled"))).length
  { totalAppointments := totalAppointments,
    confirmedAppointments := confirmedAppointments,
    pendingAppointments := pendingAppointments,
    cancelledAppointments := cancelledAppointments,
    totalPatients := ((appointments.map (fun a => a.patientId)).dedup).length,
    totalDoctors := ((appointments.map (fun a => a.doctorId)).dedup).length,
    specialties := appointments.foldl (fun m a => bump m a.specialty) [],
    appointmentsByMonth := appointments.foldl (fun m a => bump m (monthKey a.date)) [],
    statusPercentages :=
      { confirmed := if totalAppointments > 0 then
          (confirmedAppointments : ℚ) / (totalAppointments : ℚ) * 100 else 0,
        pending := if totalAppointments > 0 then
          (pendingAppointments : ℚ) / (totalAppointments : ℚ) * 100 else 0,
        cancelled := if totalAppointments > 0 then
          (cancelledAppointments : ℚ) / (totalAppointments : ℚ) * 100 else 0 } }

/-- `getGeneralStatistics`: loads the appointment collection (absent key →
empty list) and aggregates.  The surrounding try/catch logs and RETHROWS, so
a corrupt payload makes the whole call fail. -/
def getGeneralStatistics (appts : Payload Appointment) : Except Unit Statistics :=
  match jsonLoad appts with
  | .ok appointments => .ok (computeStatistics appointments)
  | .error e => .error e

/-! ## Appointment repository operations missing from the inspected sources

The status-transition and delete operations are invoked from screens that are
not part of the inspected tree (only the action modal and the services they
call are), so they are modelled from the specification. -/

/-- Modelled from the spec: `setStatus(id, newStatus, reason?)` — the
repository operation absent from the inspected sources.  It loads the
collection, locates the record by id, fails with `NotFoundError` if absent,
applies the transition, persists the entire collection, and triggers
`notifyAppointmentConfirmed` / `notifyAppointmentCancelled` (with the
optional reason) addressed to the patient. -/
def setStatus (now : Nat) (id newStatus : String) (reason : Option String)
    (appts : Payload Appointment) (notifs : Payload Notification) :
    Except String (Payload Appointment × Payload Notification) :=
  match jsonLoad appts with
  | .error _ => .error "StoreError"
  | .ok appointments =>
      match appointments.find? (fun a => decide (a.id = id)) with
      | none => .error "NotFoundError"
      | some a =>
          let updated := appointments.map (fun x =>
            if x.id = id then { x with status := newStatus } else x)
          let details := { a with status := newStatus }
          let notifs' :=
            if newStatus = "confirmed" then
              notifyAppointmentConfirmed now a.patientId details notifs
            else if newStatus = "cancelled" then
              notifyAppointmentCancelled now a.patientId details reason notifs
            else notifs
          .ok (.good updated, notifs')

/-- Modelled from the spec: `delete(id)` — removes the record from the
appointment collection and persists; it does not cascade to notifications
referencing it. -/
def deleteAppointment (id : String) (appts : Payload Appointment) : Payload Appointment :=
  match jsonLoad appts with
  | .ok appointments => .good (appointments.filter (fun a => decide (a.id ≠ id)))
  | .error _ => appts

/-! ## Serial execution of repository calls -/

/-- The whole persisted state the repository calls touch. -/
structure Store where
  appointments : Payload Appointment
  notifications : Payload Notification
deriving DecidableEq, Repr

/-- One serial repository call.  `create` carries the clock readings it
consumes; `set` carries `true` for a transition to `confirmed` and `false`
for `cancelled` (the two actions the confirmation modal offers). -/
inductive Op where
  | create (now notifNow : Nat) (user : Option UserInfo) (date time : String) (doctor : Doctor)
  | set (now : Nat) (id : String) (toConfirmed : Bool) (reason : Option String)
  | del (id : String)
deriving DecidableEq, Repr

/-- Run one call against the store; a failing `setStatus` leaves the store
untouched (the error is surfaced to the caller, not applied). -/
def applyOp (s : Store) : Op → Store
  | .create now notifNow user date time doctor =>
      let r := handleCreateAppointment now notifNow user date time (some doctor)
        s.appointments s.notifications
      { appointments := r.appts, notifications := r.notifs }
  | .set now id toConfirmed reason =>
      match setStatus now id (if toConfirmed then "confirmed" else "cancelled") reason
        s.appointments s.notifications with
      | .ok (appts, notifs) => { appointments := appts, notifications := notifs }
      | .error _ => s
  | .del id =>
      { s with appointments := deleteAppointment id s.appointments }

/-- Run a serial sequence of calls. -/
def runOps (s : Store) (ops : List Op) : Store :=
  ops.foldl applyOp s

/-- The collection contents each call implies, as pure list operations:
`create` appends the new record, `set` rewrites the status of the located
record (no change when the id is absent), `del` filters the record out. -/
def applyPure (l : List Appointment) : Op → List Appointment
  | .create now _ user date time doctor => l ++ [newAppointment now user doctor date time]
  | .set _ id toConfirmed _ =>
      match l.find? (fun a => decide (a.id = id)) with
      | some _ => l.map (fun x =>
          if x.id = id then
            { x with status := if toConfirmed then "confirmed" else "cancelled" }
          else x)
      | none => l
  | .del id => l.filter (fun a => decide (a.id ≠ id))

/-- The implied collection after a serial sequence of calls. -/
def runPure (l : List Appointment) (ops : List Op) : List Appointment :=
  ops.foldl applyPure l

/-- A well-formed appointment collection: ids are unique and every status is
one of the three legal values. -/
def WellFormedAppointments (l : List Appointment) : Prop :=
  (l.map (fun a => a.id)).Nodup ∧
    ∀ a ∈ l, a.status = "pending" ∨ a.status = "confirmed" ∨ a.status = "cancelled"

instance : DecidablePred WellFormedAppointments := fun l => by
  unfold WellFormedAppointments; infer_instance

/-- The id a call freshly generates, if any. -/
def Op.createdId : Op → Option String
  | .create now _ _ _ _ _ => some (toString now)
  | _ => none

/-- The non-emptiness the create screen checks before persisting. -/
def Op.argsOk : Op → Prop
  | .create _ _ _ date time _ => date ≠ "" ∧ time ≠ ""
  | _ => True

/-- Freshness of generated ids relative to a starting collection: the
timestamps consumed by the `create` calls are pairwise distinct (as id
strings) and none of them is already an id of the collection. -/
def FreshIds (l : List Appointment) (ops : List Op) : Prop :=
  (ops.filterMap Op.createdId).Nodup ∧
    ∀ i ∈ ops.filterMap Op.createdId, i ∉ l.map (fun a => a.id)

/-! ## Helper lemmas -/

/-- Total count held by an association list. -/
def countsSum (m : List (String × Nat)) : Nat :=
  (m.map Prod.snd).sum

theorem countsSum_bump (m : List (String × Nat)) (key : String) :
    countsSum (bump m key) = countsSum m + 1 := by
  induction m with
  | nil => rfl
  | cons kv rest ih =>
    obtain ⟨k, v⟩ := kv
    by_cases h : k = key
    · simp [bump, h, countsSum]
      omega
    · simp [bump, h, countsSum] at ih ⊢
      omega

theorem countsSum_foldl_bump (f : Appointment → String) (as : List Appointment) :
    ∀ m, countsSum (as.foldl (fun m a => bump m (f a)) m) = countsSum m + as.length := by
  induction as with
  | nil => intro m; simp
  | cons a rest ih =>
    intro m
    simp only [List.foldl_cons, List.length_cons]
    rw [ih, countsSum_bump]
    omega

theorem filter_orderedInsert_of_neg (r : α → α → Prop) [DecidableRel r]
    (p : α → Bool) (a : α) (l : List α) (ha : p a = false) :
    (l.orderedInsert r a).filter p = l.filter p := by
  induction l with
  | nil => simp [List.orderedInsert, ha]
  | cons b t ih =>
    by_cases hr : r a b
    · simp [List.orderedInsert, hr, ha]
    · cases hpb : p b <;>
        simp [List.orderedInsert, hr, hpb, List.filter_cons, ih]

theorem filter_orderedInsert_of_pos (r : α → α → Prop) [DecidableRel r]
    (p : α → Bool) (a : α) (l : List α) (ha : p a = true)
    (h : ∀ b ∈ l, p b = true → r a b) :
    (l.orderedInsert r a).filter p = a :: l.filter p := by
  induction l with
  | nil => simp [List.orderedInsert, ha]
  | cons b t ih =>
    by_cases hr : r a b
    · simp [List.orderedInsert, hr, ha]
    · have hpb : p b = false := by
        cases hpb : p b
        · rfl
        · exact absurd (h b (List.mem_cons_self b t) hpb) hr
      have hpb' : ¬ p b = true := by simp [hpb]
      rw [List.orderedInsert, if_neg hr, List.filter_cons_of_neg hpb',
        ih (fun x hx hpx => h x (List.mem_cons_of_mem b hx) hpx),
        List.filter_cons_of_neg hpb']

/-- A stable sort leaves the subsequence of elements sharing any one sort key
untouched: filtering by a predicate whose holders are mutually related
commutes with `insertionSort`. -/
theorem filter_insertionSort (r : α → α → Prop) [DecidableRel r]
    (p : α → Bool) (hp : ∀ a b, p a = true → p b = true → r a b) (l : List α) :
    (l.insertionSort r).filter p = l.filter p := by
  induction l with
  | nil => rfl
  | cons a t ih =>
    rw [List.insertionSort]
    cases hpa : p a
    · rw [filter_orderedInsert_of_neg r p a _ hpa, ih, List.filter_cons_of_neg]
      simp [hpa]
    · rw [filter_orderedInsert_of_pos r p a _ hpa (fun b _ hpb => hp a b hpa hpb), ih,
        List.filter_cons_of_pos]
      simp [hpa]

/-! ## Claim theorems -/

/-- C7: for every stored notification collection and every userId,
`getNotifications(userId)` returns exactly the stored records whose `userId`
equals the argument, ordered by `createdAt` descending, and records with
equal `createdAt` timestamps keep their stored insertion order (the filtered
subsequence at each timestamp is unchanged). -/
theorem getNotifications_filter_sorted_stable (userId : String) (ns : List Notification) :
    (getNotifications userId (Payload.good ns)).Perm
        (ns.filter (fun n => decide (n.userId = userId))) ∧
    (getNotifications userId (Payload.good ns)).Sorted notifGe ∧
    ∀ t : Nat,
      (getNotifications userId (Payload.good ns)).filter (fun n => decide (n.createdAt = t)) =
        (ns.filter (fun n => decide (n.userId = userId))).filter
          (fun n => decide (n.createdAt = t)) := by
  refine ⟨?_, ?_, ?_⟩
  · exact List.perm_insertionSort notifGe _
  · exact List.sorted_insertionSort notifGe _
  · intro t
    exact filter_insertionSort notifGe _
      (fun a b hpa hpb => by
        simp only [decide_eq_true_eq] at hpa hpb
        unfold notifGe
        omega) _

/-- C9: `markAsRead` is idempotent and total on every stored collection:
applying it twice equals applying it once, every matched record ends with
`read = true`, and an id matching no record leaves the collection unchanged
(no error in any case). -/
theorem markAsRead_idempotent_total (notificationId : String) (ns : List Notification) :
    markAsRead notificationId (markAsRead notificationId (Payload.good ns)) =
        markAsRead notificationId (Payload.good ns) ∧
    (∀ n ∈ payloadRecords (markAsRead notificationId (Payload.good ns)),
        n.id = notificationId → n.read = true) ∧
    ((∀ n ∈ ns, n.id ≠ notificationId) →
        markAsRead notificationId (Payload.good ns) = Payload.good ns) := by
  refine ⟨?_, ?_, ?_⟩
  · simp only [markAsRead, jsonLoad, List.map_map]
    congr 1
    apply List.map_congr_left
    intro n _
    by_cases h : n.id = notificationId <;> simp [h]
  · intro n hn hid
    simp only [markAsRead, jsonLoad, payloadRecords, List.mem_map] at hn
    obtain ⟨m, _, rfl⟩ := hn
    by_cases h : m.id = notificationId
    · simp [h]
    · simp only [if_neg h] at hid ⊢
      exact absurd hid h
  · intro h
    simp only [markAsRead, jsonLoad]
    congr 1
    have : ∀ n ∈ ns, (if n.id = notificationId then { n with read := true } else n) = n := by
      intro n hn
      rw [if_neg (h n hn)]
    rw [List.map_congr_left this]
    exact List.map_id ns

/-- C9 witness: a concrete run of the no-match case through the theorem. -/
theorem markAsRead_idempotent_total_witness :
    (∀ n ∈ [({ id := "1", userId := "u", title := "t", message := "m",
               type := "general", read := false, createdAt := 5,
               appointmentId := none } : Notification)],
      n.id ≠ "9") ∧
    markAsRead "9" (Payload.good
        [{ id := "1", userId := "u", title := "t", message := "m",
           type := "general", read := false, createdAt := 5,
           appointmentId := none }]) =
      Payload.good
        [{ id := "1", userId := "u", title := "t", message := "m",
           type := "general", read := false, createdAt := 5,
           appointmentId := none }] :=
  ⟨by decide,
   (markAsRead_idempotent_total "9"
      [{ id := "1", userId := "u", title := "t", message := "m",
         type := "general", read := false, createdAt := 5,
         appointmentId := none }]).2.2 (by decide)⟩

/-- C10: `markAsRead` and `markAllAsRead` preserve the number, order, ids and
every field other than `read` of the stored records; a record's `read` flag
only changes by becoming `true` when the record matches. -/
theorem mark_operations_frame (notificationId userId : String) (ns : List Notification) :
    (payloadRecords (markAsRead notificationId (Payload.good ns))).length = ns.length ∧
    List.Forall₂ (fun n n' => n'.id = n.id ∧ n'.userId = n.userId ∧ n'.title = n.title ∧
        n'.message = n.message ∧ n'.type = n.type ∧ n'.createdAt = n.createdAt ∧
        n'.appointmentId = n.appointmentId ∧
        n'.read = (n.read || decide (n.id = notificationId)))
      ns (payloadRecords (markAsRead notificationId (Payload.good ns))) ∧
    (payloadRecords (markAllAsRead userId (Payload.good ns))).length = ns.length ∧
    List.Forall₂ (fun n n' => n'.id = n.id ∧ n'.userId = n.userId ∧ n'.title = n.title ∧
        n'.message = n.message ∧ n'.type = n.type ∧ n'.createdAt = n.createdAt ∧
        n'.appointmentId = n.appointmentId ∧
        n'.read = (n.read || decide (n.userId = userId)))
      ns (payloadRecords (markAllAsRead userId (Payload.good ns))) := by
  refine ⟨?_, ?_, ?_, ?_⟩
  · simp [markAsRead, jsonLoad, payloadRecords]
  · simp only [markAsRead, jsonLoad, payloadRecords]
    rw [List.forall₂_map_right_iff, List.forall₂_same]
    intro n _
    by_cases h : n.id = notificationId <;> simp [h]
  · simp [markAllAsRead, jsonLoad, payloadRecords]
  · simp only [markAllAsRead, jsonLoad, payloadRecords]
    rw [List.forall₂_map_right_iff, List.forall₂_same]
    intro n _
    by_cases h : n.userId = userId <;> simp [h]

/-- C3 counterexample: a corrupt appointments payload does not read as the
empty collection — `getGeneralStatistics` rethrows the parse error, unlike
the empty-collection result the claim requires for every load. -/
theorem statistics_corrupt_payload_fails :
    getGeneralStatistics Payload.corrupt = Except.error () ∧
    getGeneralStatistics Payload.corrupt ≠
      getGeneralStatistics (Payload.good ([] : List Appointment)) := by
  constructor
  · rfl
  · intro h
    simp [getGeneralStatistics, jsonLoad] at h

/-- C3 amended: `getNotifications` never fails — an absent key and a corrupt
payload both yield the empty sequence; the statistics load treats an absent
key as the empty collection but propagates the parse error on a corrupt
payload; no load fails with a not-found error (the only failing payload is
the corrupt one). -/
theorem load_error_handling_amended (userId : String) :
    getNotifications userId Payload.absent = [] ∧
    getNotifications userId Payload.corrupt = [] ∧
    getGeneralStatistics Payload.absent = Except.ok (computeStatistics []) ∧
    getGeneralStatistics Payload.corrupt = Except.error () ∧
    ∀ p : Payload Appointment,
      getGeneralStatistics p = Except.error () ↔ p = Payload.corrupt := by
  refine ⟨rfl, rfl, rfl, rfl, ?_⟩
  intro p
  cases p <;> simp [getGeneralStatistics, jsonLoad]

/-- C5: the per-month aggregation never skips an appointment whose stored
date fails to split into three components — JavaScript array destructuring
of a short `split('/')` result does not throw, so the record is counted
under a key built from the string "undefined", the warning branch stays
dead for every string date, and (as the claim does say) the aggregation
never aborts: the bucket counts always total the collection size. -/
theorem month_aggregation_counts_unsplittable_date :
    (computeStatistics
        [{ id := "1", patientId := "p", patientName := "P", doctorId := "d",
           doctorName := "D", date := "banana", time := "09:00",
           specialty := "Cardiologia", status := "pending" }]).appointmentsByMonth =
      [("undefined/undefined", 1)] ∧
    getGeneralStatistics (Payload.good
        [{ id := "1", patientId := "p", patientName := "P", doctorId := "d",
           doctorName := "D", date := "banana", time := "09:00",
           specialty := "Cardiologia", status := "pending" }]) =
      Except.ok (computeStatistics
        [{ id := "1", patientId := "p", patientName := "P", doctorId := "d",
           doctorName := "D", date := "banana", time := "09:00",
           specialty := "Cardiologia", status := "pending" }]) ∧
    ∀ as : List Appointment,
      countsSum (computeStatistics as).appointmentsByMonth = as.length := by
  refine ⟨by decide, rfl, ?_⟩
  intro as
  simp only [computeStatistics]
  rw [countsSum_foldl_bump (fun a => monthKey a.date) as []]
  simp [countsSum]

/-- C8: with 10 appointments of which 3 are confirmed, 4 pending and 3
cancelled, `getGeneralStatistics` yields status percentages 30/40/30; with
an empty collection every percentage is 0 and the call still succeeds (the
guard avoids the division). -/
theorem statusPercentages_spec (as : List Appointment)
    (h10 : as.length = 10)
    (hc : (as.filter (fun a => decide (a.status = "confirmed"))).length = 3)
    (hp : (as.filter (fun a => decide (a.status = "pending"))).length = 4)
    (hx : (as.filter (fun a => decide (a.status = "cancelled"))).length = 3) :
    getGeneralStatistics (Payload.good as) = Except.ok (computeStatistics as) ∧
    (computeStatistics as).statusPercentages =
      { confirmed := 30, pending := 40, cancelled := 30 } ∧
    getGeneralStatistics (Payload.good ([] : List Appointment)) =
      Except.ok (computeStatistics []) ∧
    (computeStatistics ([] : List Appointment)).statusPercentages =
      { confirmed := 0, pending := 0, cancelled := 0 } := by
  refine ⟨rfl, ?_, rfl, by decide⟩
  simp only [computeStatistics]
  rw [h10, hc, hp, hx]
  simp only [StatusPercentages.mk.injEq]
  norm_num

/-- C8 witness: the percentages at a concrete 10-element collection. -/
theorem statusPercentages_spec_witness :
    ([{ id := "1", patientId := "p1", patientName := "P", doctorId := "d", doctorName := "D",
        date := "25/12/2030", time := "09:00", specialty := "Cardiologia",
        status := "confirmed" },
      { id := "2", patientId := "p2", patientName := "P", doctorId := "d", doctorName := "D",
        date := "25/12/2030", time := "09:30", specialty := "Cardiologia",
        status := "confirmed" },
      { id := "3", patientId := "p3", patientName := "P", doctorId := "d", doctorName := "D",
        date := "25/12/2030", time := "10:00", specialty := "Cardiologia",
        status := "confirmed" },
      { id := "4", patientId := "p4", patientName := "P", doctorId := "d", doctorName := "D",
        date := "25/12/2030", time := "10:30", specialty := "Cardiologia",
        status := "pending" },
      { id := "5", patientId := "p5", patientName := "P", doctorId := "d", doctorName := "D",
        date := "25/12/2030", time := "11:00", specialty := "Cardiologia",
        status := "pending" },
      { id := "6", patientId := "p6", patientName := "P", doctorId := "d", doctorName := "D",
        date := "25/12/2030", time := "11:30", specialty := "Cardiologia",
        status := "pending" },
      { id := "7", patientId := "p7", patientName := "P", doctorId := "d", doctorName := "D",
        date := "25/12/2030", time := "12:00", specialty := "Cardiologia",
        status := "pending" },
      { id := "8", patientId := "p8", patientName := "P", doctorId := "d", doctorName := "D",
        date := "25/12/2030", time := "12:30", specialty := "Cardiologia",
        status := "cancelled" },
      { id := "9", patientId := "p9", patientName := "P", doctorId := "d", doctorName := "D",
        date := "25/12/2030", time := "13:00", specialty := "Cardiologia",
        status := "cancelled" },
      { id := "10", patientId := "p10", patientName := "P", doctorId := "d", doctorName := "D",
        date := "25/12/2030", time := "13:30", specialty := "Cardiologia",
        status := "cancelled" }] : List Appointment).length = 10 ∧
    (computeStatistics
      [{ id := "1", patientId := "p1", patientName := "P", doctorId := "d", doctorName := "D",
         date := "25/12/2030", time := "09:00", specialty := "Cardiologia",
         status := "confirmed" },
       { id := "2", patientId := "p2", patientName := "P", doctorId := "d", doctorName := "D",
         date := "25/12/2030", time := "09:30", specialty := "Cardiologia",
         status := "confirmed" },
       { id := "3", patientId := "p3", patientName := "P", doctorId := "d", doctorName := "D",
         date := "25/12/2030", time := "10:00", specialty := "Cardiologia",
         status := "confirmed" },
       { id := "4", patientId := "p4", patientName := "P", doctorId := "d", doctorName := "D",
         date := "25/12/2030", time := "10:30", specialty := "Cardiologia",
         status := "pending" },
       { id := "5", patientId := "p5", patientName := "P", doctorId := "d", doctorName := "D",
         date := "25/12/2030", time := "11:00", specialty := "Cardiologia",
         status := "pending" },
       { id := "6", patientId := "p6", patientName := "P", doctorId := "d", doctorName := "D",
         date := "25/12/2030", time := "11:30", specialty := "Cardiologia",
         status := "pending" },
       { id := "7", patientId := "p7", patientName := "P", doctorId := "d", doctorName := "D",
         date := "25/12/2030", time := "12:00", specialty := "Cardiologia",
         status := "pending" },
       { id := "8", patientId := "p8", patientName := "P", doctorId := "d", doctorName := "D",
         date := "25/12/2030", time := "12:30", specialty := "Cardiologia",
         status := "cancelled" },
       { id := "9", patientId := "p9", patientName := "P", doctorId := "d", doctorName := "D",
         date := "25/12/2030", time := "13:00", specialty := "Cardiologia",
         status := "cancelled" },
       { id := "10", patientId := "p10", patientName := "P", doctorId := "d", doctorName := "D",
         date := "25/12/2030", time := "13:30", specialty := "Cardiologia",
         status := "cancelled" }]).statusPercentages =
      { confirmed := 30, pending := 40, cancelled := 30 } :=
  ⟨by decide,
   (statusPercentages_spec _ (by decide) (by decide) (by decide) (by decide)).2.1⟩

/-- C6 counterexample: a create call with `time = "08:30"` (outside the slot
grid) is not rejected — the handler persists the appointment and reports no
error, because no create path validates slot membership. -/
theorem create_accepts_off_grid_time :
    "08:30" ∉ generateTimeSlots ∧
    handleCreateAppointment 1000 2000 (some { id := "p1", name := "Pat" })
        "25/12/2030" "08:30"
        (some { id := "d1", name := "Dr", specialty := "Cardiologia", image := "img" })
        (Payload.good []) (Payload.good []) =
      { appts := Payload.good
          [{ id := "1000", patientId := "p1", patientName := "Pat", doctorId := "d1",
             doctorName := "Dr", date := "25/12/2030", time := "08:30",
             specialty := "Cardiologia", status := "pending" }],
        notifs := Payload.good
          [{ id := "2000", userId := "d1", title := "Nova Consulta Agendada",
             message := "Pat agendou uma consulta para 25/12/2030 às 08:30.",
             type := "general", read := false, createdAt := 2000,
             appointmentId := some "1000" }],
        error := none } := by
  decide

/-- C6 amended: the generated half-hour slot grid — the only source of
selectable times in both create flows — contains exactly `HH:00` and `HH:30`
for hours 9 through 17, so "09:00" and "17:30" are offered while "08:30" and
"18:00" are not; the create handlers themselves do not validate slot
membership. -/
theorem time_slot_grid_spec :
    generateTimeSlots =
      ["09:00", "09:30", "10:00", "10:30", "11:00", "11:30", "12:00", "12:30",
       "13:00", "13:30", "14:00", "14:30", "15:00", "15:30", "16:00", "16:30",
       "17:00", "17:30"] ∧
    ("09:00" ∈ generateTimeSlots ∧ "17:30" ∈ generateTimeSlots ∧
      "08:30" ∉ generateTimeSlots ∧ "18:00" ∉ generateTimeSlots) ∧
    ∀ h ∈ Finset.Icc 9 17,
      pad2 h ++ ":00" ∈ generateTimeSlots ∧ pad2 h ++ ":30" ∈ generateTimeSlots := by
  decide

/-- C6 witness: the grid facts applied at hour 9. -/
theorem time_slot_grid_spec_witness :
    9 ∈ Finset.Icc 9 17 ∧
    (pad2 9 ++ ":00" ∈ generateTimeSlots ∧ pad2 9 ++ ":30" ∈ generateTimeSlots) :=
  ⟨by decide, time_slot_grid_spec.2.2 9 (by decide)⟩

/-- C2 counterexample: a create call whose date is not parseable as
DD/MM/YYYY ("banana") is persisted with no error — the persisting create
path never runs the date-window check. -/
theorem create_skips_date_validation :
    validateDate 1767225600000 "banana" = false ∧
    handleCreateAppointment 1000 2000 (some { id := "p1", name := "Pat" })
        "banana" "09:00"
        (some { id := "d1", name := "Dr", specialty := "Cardiologia", image := "img" })
        (Payload.good []) (Payload.good []) =
      { appts := Payload.good
          [{ id := "1000", patientId := "p1", patientName := "Pat", doctorId := "d1",
             doctorName := "Dr", date := "banana", time := "09:00",
             specialty := "Cardiologia", status := "pending" }],
        notifs := Payload.good
          [{ id := "2000", userId := "d1", title := "Nova Consulta Agendada",
             message := "Pat agendou uma consulta para banana às 09:00.",
             type := "general", read := false, createdAt := 2000,
             appointmentId := some "1000" }],
        error := none } := by
  decide

/-- C2 amended: the persisting create handler fails (with the field-presence
error, leaving the collection unchanged) exactly when `date`, `time` or the
doctor selection is empty, and otherwise persists the appointment no matter
what the date or time contain; the DD/MM/YYYY-format and [today, today+3
months] window check exists only in the `AppointmentForm` flow, whose submit
emits a payload if and only if its fields are non-empty and `validateDate`
accepts the date input. -/
theorem create_validation_amended (now notifNow : Nat) (nowMs : Int)
    (user : Option UserInfo) (date time desc docId : String) (doctor : Doctor)
    (l : List Appointment) (notifs : Payload Notification) :
    (if date = "" ∨ time = "" then
      handleCreateAppointment now notifNow user date time (some doctor) (Payload.good l)
          notifs =
        { appts := Payload.good l, notifs := notifs,
          error := some "Por favor, preencha a data e selecione um médico e horário" }
     else
      handleCreateAppointment now notifNow user date time (some doctor) (Payload.good l)
          notifs =
        { appts := Payload.good (l ++ [newAppointment now user doctor date time]),
          notifs := notifyNewAppointment notifNow doctor.id
            (newAppointment now user doctor date time) notifs,
          error := none }) ∧
    handleCreateAppointment now notifNow user date time none (Payload.good l) notifs =
      { appts := Payload.good l, notifs := notifs,
        error := some "Por favor, preencha a data e selecione um médico e horário" } ∧
    ((handleSubmit nowMs docId date time desc).isSome = true ↔
      (docId ≠ "" ∧ time ≠ "" ∧ desc ≠ "" ∧ validateDate nowMs date = true)) := by
  refine ⟨?_, ?_, ?_⟩
  · by_cases hd : date = "" ∨ time = ""
    · rw [if_pos hd]
      unfold handleCreateAppointment
      rw [if_pos]
      rcases hd with h | h
      · exact Or.inl h
      · exact Or.inr (Or.inl h)
    · rw [if_neg hd]
      unfold handleCreateAppointment
      rw [if_neg]
      · rfl
      · intro h
        rcases h with h | h | h
        · exact hd (Or.inl h)
        · exact hd (Or.inr h)
        · exact Option.noConfusion h
  · unfold handleCreateAppointment
    rw [if_pos (Or.inr (Or.inr rfl))]
  · unfold handleSubmit
    by_cases h1 : docId = "" ∨ time = "" ∨ desc = ""
    · rw [if_pos h1]
      simp only [Option.isSome_none, Bool.false_eq_true, false_iff]
      intro ⟨ha, hb, hc, _⟩
      rcases h1 with h | h | h
      · exact ha h
      · exact hb h
      · exact hc h
    · rw [if_neg h1]
      push_neg at h1
      obtain ⟨ha, hb, hc⟩ := h1
      by_cases hv : validateDate nowMs date = true
      · rw [if_pos hv]
        have hv' := hv
        unfold validateDate at hv'
        rcases hsp : jsSplit date with _ | ⟨a, tl⟩
        · rw [hsp] at hv'
          exact absurd hv' (by simp)
        · rcases tl with _ | ⟨b, tl2⟩
          · rw [hsp] at hv'
            exact absurd hv' (by simp)
          · rcases tl2 with _ | ⟨c, tl3⟩
            · rw [hsp] at hv'
              exact absurd hv' (by simp)
            · rcases tl3 with _ | ⟨d, tl4⟩
              · simp [ha, hb, hc, hv]
              · rw [hsp] at hv'
                exact absurd hv' (by simp)
      · rw [if_neg hv]
        simp only [Option.isSome_none, Bool.false_eq_true, false_iff]
        intro ⟨_, _, _, hv4⟩
        exact hv hv4

instance : ∀ op : Op, Decidable op.argsOk := fun op =>
  match op with
  | .create _ _ _ d t _ => inferInstanceAs (Decidable (d ≠ "" ∧ t ≠ ""))
  | .set _ _ _ _ => inferInstanceAs (Decidable True)
  | .del _ => inferInstanceAs (Decidable True)

instance (l : List Appointment) (ops : List Op) : Decidable (FreshIds l ops) := by
  unfold FreshIds
  infer_instance

theorem applyOp_create_eq (l : List Appointment) (np : Payload Notification)
    (now notifNow : Nat) (user : Option UserInfo) (date time : String) (doctor : Doctor)
    (hd : date ≠ "") (ht : time ≠ "") :
    applyOp { appointments := Payload.good l, notifications := np }
        (Op.create now notifNow user date time doctor) =
      { appointments := Payload.good (l ++ [newAppointment now user doctor date time]),
        notifications := notifyNewAppointment notifNow doctor.id
          (newAppointment now user doctor date time) np } := by
  simp only [applyOp, handleCreateAppointment]
  rw [if_neg]
  · rfl
  · intro h
    rcases h with h | h | h
    · exact hd h
    · exact ht h
    · exact Option.noConfusion h

theorem applyOp_set_eq (l : List Appointment) (np : Payload Notification)
    (now : Nat) (id : String) (c : Bool) (reason : Option String) :
    ∃ np', applyOp { appointments := Payload.good l, notifications := np }
        (Op.set now id c reason) =
      { appointments := Payload.good (applyPure l (Op.set now id c reason)),
        notifications := np' } := by
  simp only [applyOp, setStatus, applyPure, jsonLoad]
  cases hf : l.find? (fun a => decide (a.id = id)) with
  | none => exact ⟨np, rfl⟩
  | some a => exact ⟨_, rfl⟩

theorem applyOp_del_eq (l : List Appointment) (np : Payload Notification) (id : String) :
    applyOp { appointments := Payload.good l, notifications := np } (Op.del id) =
      { appointments := Payload.good (applyPure l (Op.del id)), notifications := np } :=
  rfl

/-- Serial runs through the store agree with the pure list semantics: the
persisted collection after any argument-checked sequence is exactly the
implied one. -/
theorem runOps_eq_runPure (ops : List Op) :
    ∀ (l : List Appointment) (np : Payload Notification),
      (∀ op ∈ ops, op.argsOk) →
      ∃ np', runOps { appointments := Payload.good l, notifications := np } ops =
        { appointments := Payload.good (runPure l ops), notifications := np' } := by
  induction ops with
  | nil => intro l np _; exact ⟨np, rfl⟩
  | cons op rest ih =>
    intro l np hargs
    have hrest : ∀ o ∈ rest, o.argsOk := fun o ho => hargs o (List.mem_cons_of_mem op ho)
    cases op with
    | create now notifNow user date time doctor =>
        obtain ⟨hd, ht⟩ := hargs _ (List.mem_cons_self _ _)
        unfold runOps runPure
        rw [List.foldl_cons, List.foldl_cons,
          applyOp_create_eq l np now notifNow user date time doctor hd ht]
        exact ih _ _ hrest
    | set now id c reason =>
        obtain ⟨np', hstep⟩ := applyOp_set_eq l np now id c reason
        unfold runOps runPure
        rw [List.foldl_cons, List.foldl_cons, hstep]
        exact ih _ _ hrest
    | del id =>
        unfold runOps runPure
        rw [List.foldl_cons, List.foldl_cons, applyOp_del_eq l np id]
        exact ih _ _ hrest

theorem applyPure_set_ids (l : List Appointment) (now : Nat) (id : String) (c : Bool)
    (reason : Option String) :
    (applyPure l (Op.set now id c reason)).map (fun a => a.id) =
      l.map (fun a => a.id) := by
  simp only [applyPure]
  cases hf : l.find? (fun a => decide (a.id = id)) with
  | none => rfl
  | some a =>
      rw [List.map_map]
      apply List.map_congr_left
      intro x _
      by_cases h : x.id = id <;> simp [h]

/-- The implied collection stays well-formed along any call sequence whose
create timestamps are fresh. -/
theorem runPure_wellFormed (ops : List Op) :
    ∀ l, WellFormedAppointments l → FreshIds l ops →
      WellFormedAppointments (runPure l ops) := by
  induction ops with
  | nil => intro l hwf _; exact hwf
  | cons op rest ih =>
    intro l hwf hfresh
    obtain ⟨hnodup, hnotin⟩ := hfresh
    cases op with
    | create now notifNow user date time doctor =>
        have hids : (Op.create now notifNow user date time doctor :: rest).filterMap
            Op.createdId = toString now :: rest.filterMap Op.createdId := by
          simp [List.filterMap_cons, Op.createdId]
        rw [hids] at hnodup
        have hhead : toString now ∉ l.map (fun a => a.id) :=
          hnotin _ (by rw [hids]; exact List.mem_cons_self _ _)
        have hnodup' := List.nodup_cons.mp hnodup
        have hwf' : WellFormedAppointments
            (l ++ [newAppointment now user doctor date time]) := by
          constructor
          · rw [List.map_append, List.nodup_append]
            refine ⟨hwf.1, List.nodup_singleton _, ?_⟩
            intro x hx hx2
            simp only [List.map_cons, List.map_nil, List.mem_singleton] at hx2
            subst hx2
            exact hhead hx
          · intro a ha
            rcases List.mem_append.mp ha with h | h
            · exact hwf.2 a h
            · simp only [List.mem_singleton] at h
              subst h
              exact Or.inl rfl
        have hfresh' : FreshIds (l ++ [newAppointment now user doctor date time]) rest := by
          refine ⟨hnodup'.2, ?_⟩
          intro i hi
          rw [List.map_append]
          intro hmem
          rcases List.mem_append.mp hmem with h | h
          · exact hnotin i (by rw [hids]; exact List.mem_cons_of_mem _ hi) h
          · simp only [List.map_cons, List.map_nil, List.mem_singleton] at h
            subst h
            exact hnodup'.1 hi
        exact ih _ hwf' hfresh'
    | set now id c reason =>
        have hids : (Op.set now id c reason :: rest).filterMap Op.createdId =
            rest.filterMap Op.createdId := by
          simp [List.filterMap_cons, Op.createdId]
        rw [hids] at hnodup
        have hwf' : WellFormedAppointments (applyPure l (Op.set now id c reason)) := by
          constructor
          · rw [applyPure_set_ids]
            exact hwf.1
          · simp only [applyPure]
            cases hf : l.find? (fun a => decide (a.id = id)) with
            | none => exact hwf.2
            | some a =>
                intro x hx
                obtain ⟨y, hy, rfl⟩ := List.mem_map.mp hx
                by_cases h : y.id = id
                · simp only [if_pos h]
                  cases c
                  · exact Or.inr (Or.inr rfl)
                  · exact Or.inr (Or.inl rfl)
                · simp only [if_neg h]
                  exact hwf.2 y hy
        have hfresh' : FreshIds (applyPure l (Op.set now id c reason)) rest := by
          refine ⟨hnodup, ?_⟩
          intro i hi
          rw [applyPure_set_ids]
          exact hnotin i (by rw [hids]; exact hi)
        exact ih _ hwf' hfresh'
    | del id =>
        have hids : (Op.del id :: rest).filterMap Op.createdId =
            rest.filterMap Op.createdId := by
          simp [List.filterMap_cons, Op.createdId]
        rw [hids] at hnodup
        have hsub : List.Sublist ((applyPure l (Op.del id)).map (fun a => a.id))
            (l.map (fun a => a.id)) := by
          simp only [applyPure]
          exact (List.filter_sublist l).map _
        have hwf' : WellFormedAppointments (applyPure l (Op.del id)) := by
          constructor
          · exact hwf.1.sublist hsub
          · intro a ha
            simp only [applyPure] at ha
            exact hwf.2 a (List.mem_of_mem_filter ha)
        have hfresh' : FreshIds (applyPure l (Op.del id)) rest := by
          refine ⟨hnodup, ?_⟩
          intro i hi hmem
          exact hnotin i (by rw [hids]; exact hi) (hsub.subset hmem)
        exact ih _ hwf' hfresh'

/-- C1 counterexample: two serial create calls in the same millisecond —
starting from the well-formed empty collection — persist two records with
the identical id "5", so id uniqueness fails as the spec itself warns for
timestamp-generated ids. -/
theorem duplicate_id_counterexample :
    WellFormedAppointments [] ∧
    ¬ ((payloadRecords (runOps
        { appointments := Payload.good [], notifications := Payload.good [] }
        [Op.create 5 6 (some { id := "p", name := "P" }) "25/12/2030" "09:00"
           { id := "d", name := "D", specialty := "Cardiologia", image := "i" },
         Op.create 5 7 (some { id := "p", name := "P" }) "25/12/2030" "09:30"
           { id := "d", name := "D", specialty := "Cardiologia", image := "i" }]
        ).appointments).map (fun a => a.id)).Nodup := by
  constructor
  · decide
  · decide

/-- C1 amended: for every serial sequence of create/setStatus/delete calls
from a well-formed collection — provided the create calls draw pairwise
distinct timestamps whose strings are not already ids of the collection
(the freshness that timestamp-generated ids do not guarantee by themselves)
and pass non-empty arguments — after every prefix of the sequence the
persisted collection holds exactly the implied records, with unique ids and
statuses among pending/confirmed/cancelled. -/
theorem appointment_ops_invariant (l : List Appointment) (np : Payload Notification)
    (ops pre suf : List Op)
    (hwf : WellFormedAppointments l)
    (hfresh : FreshIds l ops)
    (hargs : ∀ op ∈ ops, op.argsOk)
    (hsplit : ops = pre ++ suf) :
    (∃ np', runOps { appointments := Payload.good l, notifications := np } pre =
        { appointments := Payload.good (runPure l pre), notifications := np' }) ∧
    WellFormedAppointments (runPure l pre) := by
  subst hsplit
  have hargs_pre : ∀ op ∈ pre, op.argsOk := fun op ho =>
    hargs op (List.mem_append_left _ ho)
  have hfresh_pre : FreshIds l pre := by
    obtain ⟨h1, h2⟩ := hfresh
    rw [List.filterMap_append] at h1 h2
    exact ⟨(List.nodup_append.mp h1).1, fun i hi => h2 i (List.mem_append_left _ hi)⟩
  exact ⟨runOps_eq_runPure pre l np hargs_pre,
    runPure_wellFormed pre l hwf hfresh_pre⟩

/-- C1 witness: a concrete create–confirm–delete run through the invariant
theorem. -/
theorem appointment_ops_invariant_witness :
    (∃ np', runOps { appointments := Payload.good [], notifications := Payload.good [] }
        [Op.create 5 6 (some { id := "p", name := "P" }) "25/12/2030" "09:00"
           { id := "d", name := "D", specialty := "Cardiologia", image := "i" },
         Op.set 7 "5" true none, Op.del "5"] =
      { appointments := Payload.good (runPure []
          [Op.create 5 6 (some { id := "p", name := "P" }) "25/12/2030" "09:00"
             { id := "d", name := "D", specialty := "Cardiologia", image := "i" },
           Op.set 7 "5" true none, Op.del "5"]),
        notifications := np' }) ∧
    WellFormedAppointments (runPure []
      [Op.create 5 6 (some { id := "p", name := "P" }) "25/12/2030" "09:00"
         { id := "d", name := "D", specialty := "Cardiologia", image := "i" },
       Op.set 7 "5" true none, Op.del "5"]) :=
  appointment_ops_invariant [] (Payload.good [])
    [Op.create 5 6 (some { id := "p", name := "P" }) "25/12/2030" "09:00"
       { id := "d", name := "D", specialty := "Cardiologia", image := "i" },
     Op.set 7 "5" true none, Op.del "5"]
    [Op.create 5 6 (some { id := "p", name := "P" }) "25/12/2030" "09:00"
       { id := "d", name := "D", specialty := "Cardiologia", image := "i" },
     Op.set 7 "5" true none, Op.del "5"]
    [] (by decide) (by decide) (by decide) rfl

/-- C4: after creating an appointment for doctor D with patient P and then
confirming it via `setStatus(id, "confirmed")`, the notification collection
gains exactly one record relative to its state after the create, and that
record is addressed to P with type `appointment_confirmed` and unread. -/
theorem confirm_notification_scenario (t1 notifNow t2 : Nat) (P : UserInfo) (D : Doctor)
    (date time : String) (as0 : List Appointment) (ns0 : List Notification)
    (r1 : CreateResult)
    (hdate : date ≠ "") (htime : time ≠ "")
    (hfresh : toString t1 ∉ as0.map (fun a => a.id))
    (hr1 : handleCreateAppointment t1 notifNow (some P) date time (some D)
        (Payload.good as0) (Payload.good ns0) = r1) :
    ∃ ns1 appts2,
      r1.notifs = Payload.good ns1 ∧
      setStatus t2 (toString t1) "confirmed" none r1.appts r1.notifs =
        Except.ok (appts2, Payload.good (ns1 ++
          [{ id := toString t2, userId := P.id, title := "Consulta Confirmada",
             message := "Sua consulta com " ++ D.name ++ " foi confirmada para " ++
               date ++ " às " ++ time ++ ".",
             type := "appointment_confirmed", read := false, createdAt := t2,
             appointmentId := some (toString t1) }])) := by
  have hnone : List.find? (fun a => decide (a.id = toString t1)) as0 = none := by
    rw [List.find?_eq_none]
    intro x hx hdec
    rw [decide_eq_true_eq] at hdec
    exact hfresh (List.mem_map.mpr ⟨x, hx, hdec⟩)
  have hr : handleCreateAppointment t1 notifNow (some P) date time (some D)
      (Payload.good as0) (Payload.good ns0) =
      { appts := Payload.good (as0 ++ [newAppointment t1 (some P) D date time]),
        notifs := notifyNewAppointment notifNow D.id
          (newAppointment t1 (some P) D date time) (Payload.good ns0),
        error := none } := by
    simp only [handleCreateAppointment]
    rw [if_neg]
    · rfl
    · rintro (h | h | h)
      · exact hdate h
      · exact htime h
      · exact Option.noConfusion h
  subst hr1
  rw [hr]
  refine ⟨_, Payload.good ((as0 ++ [newAppointment t1 (some P) D date time]).map
    (fun x => if x.id = toString t1 then { x with status := "confirmed" } else x)),
    rfl, ?_⟩
  simp only [setStatus, jsonLoad, notifyNewAppointment, createNotification]
  rw [List.find?_append, hnone, Option.none_or,
    List.find?_cons_of_pos _ (by simp [newAppointment])]
  rfl

/-- C4 witness: the create–confirm scenario run at concrete inputs through
the theorem. -/
theorem confirm_notification_scenario_witness :
    (("25/12/2030" : String) ≠ "" ∧ ("09:00" : String) ≠ "" ∧
      toString (5 : Nat) ∉ ([] : List Appointment).map (fun a => a.id)) ∧
    ∃ ns1 appts2,
      (handleCreateAppointment 5 6 (some { id := "p", name := "Pn" }) "25/12/2030" "09:00"
          (some { id := "d", name := "Dn", specialty := "Cardiologia", image := "i" })
          (Payload.good []) (Payload.good [])).notifs = Payload.good ns1 ∧
      setStatus 7 (toString (5 : Nat)) "confirmed" none
          (handleCreateAppointment 5 6 (some { id := "p", name := "Pn" }) "25/12/2030"
            "09:00"
            (some { id := "d", name := "Dn", specialty := "Cardiologia", image := "i" })
            (Payload.good []) (Payload.good [])).appts
          (handleCreateAppointment 5 6 (some { id := "p", name := "Pn" }) "25/12/2030"
            "09:00"
            (some { id := "d", name := "Dn", specialty := "Cardiologia", image := "i" })
            (Payload.good []) (Payload.good [])).notifs =
        Except.ok (appts2, Payload.good (ns1 ++
          [{ id := toString (7 : Nat), userId := "p", title := "Consulta Confirmada",
             message := "Sua consulta com " ++ "Dn" ++ " foi confirmada para " ++
               "25/12/2030" ++ " às " ++ "09:00" ++ ".",
             type := "appointment_confirmed", read := false, createdAt := 7,
             appointmentId := some (toString (5 : Nat)) }])) :=
  ⟨⟨by decide, by decide, by decide⟩,
   confirm_notification_scenario 5 6 7 { id := "p", name := "Pn" }
     { id := "d", name := "Dn", specialty := "Cardiologia", image := "i" }
     "25/12/2030" "09:00" [] [] _ (by decide) (by decide) (by decide) rfl⟩
